import Mathlib

/- Shallow embedding of the drey_cli session dispatch and streaming engine
   (src/drey_cli/main.py and src/drey_cli/ai_helper.py).  Python strings are
   modelled as Lean strings together with explicit ASCII models of the str
   methods the code uses.  Rich text styling is dropped; each styled write to
   the output log is mapped to an OutputEvent constructor recording its role
   (white command output = fragment, bold red = error, yellow = exit status,
   dim = confirmation, cyan and green command echo = echo). -/

/-- ASCII whitespace, as recognised by Python str.strip and str.split. -/
def pyIsSpace (c : Char) : Bool :=
  c == ' ' || c == '\t' || c == '\n' || c == '\r' || c == '\x0b' || c == '\x0c'

/-- Python s.strip with no arguments: drop leading and trailing whitespace. -/
def pyStrip (s : String) : String :=
  ⟨List.reverse (List.dropWhile pyIsSpace (List.reverse (List.dropWhile pyIsSpace s.data)))⟩

/-- Python s.rstrip with no arguments: drop trailing whitespace. -/
def pyRstrip (s : String) : String :=
  ⟨List.reverse (List.dropWhile pyIsSpace (List.reverse s.data))⟩

/-- Python slicing s[n:]. -/
def pyDrop (s : String) (n : Nat) : String :=
  ⟨s.data.drop n⟩

/-- Python s.startswith(p). -/
def pyStartsWith (s p : String) : Bool :=
  p.data.isPrefixOf s.data

/-- ASCII lower-casing of one character, the fragment of Python str.lower
exercised by the embedded code. -/
def pyLowerChar (c : Char) : Char :=
  if 65 ≤ c.toNat ∧ c.toNat ≤ 90 then Char.ofNat (c.toNat + 32) else c

/-- Python s.lower (ASCII fragment). -/
def pyLower (s : String) : String :=
  ⟨s.data.map pyLowerChar⟩

/-- Contiguous-sublist test on character lists (Python `needle in hay`). -/
def segIn (n : List Char) : List Char → Bool
  | [] => List.isPrefixOf n []
  | c :: cs => List.isPrefixOf n (c :: cs) || segIn n cs

/-- Python substring test `needle in hay`. -/
def pyContains (hay needle : String) : Bool :=
  segIn needle.data hay.data

/-- Python slicing l[-n:]: the last n elements (all of them when fewer). -/
def takeLast {α : Type} (n : Nat) (l : List α) : List α :=
  l.drop (l.length - n)

/-- Python str.split with no arguments: words separated by runs of
whitespace, no empty words.  The accumulator holds the current word
reversed. -/
def splitWSAux : List Char → List Char → List String
  | [], acc => if acc = [] then [] else [⟨acc.reverse⟩]
  | c :: cs, acc =>
    if pyIsSpace c then
      if acc = [] then splitWSAux cs [] else ⟨acc.reverse⟩ :: splitWSAux cs []
    else splitWSAux cs (c :: acc)

/-- Python s.split() with no arguments. -/
def pySplit (s : String) : List String :=
  splitWSAux s.data []

/-- What DreyCLI.on_input_submitted does with one submitted line: nothing,
await ask_ai with the given question text, or await run_command with the
given command text.  (The unconditional side effects — history append,
history cursor reset, hiding the suggestion list — are modelled separately
by `record`.) -/
inductive Dispatch where
  | noop : Dispatch
  | aiQuery (q : String) : Dispatch
  | run (c : String) : Dispatch
  deriving DecidableEq

/-- Embedding of the classification in DreyCLI.on_input_submitted
(src/drey_cli/main.py lines 385-399): strip the submitted value; an empty
result is ignored; a line starting with `?` whose stripped remainder is
non-empty is an AI query with that remainder; likewise a line whose
lower-casing starts with `/ask ` (remainder = original line minus its first
five characters, stripped); a `?`/`/ask ` line with empty remainder does
nothing; everything else goes to run_command unchanged. -/
def on_input_submitted (raw : String) : Dispatch :=
  if pyStrip raw = "" then .noop
  else if pyStartsWith (pyStrip raw) "?" then
    if pyStrip (pyDrop (pyStrip raw) 1) = "" then .noop
    else .aiQuery (pyStrip (pyDrop (pyStrip raw) 1))
  else if pyStartsWith (pyLower (pyStrip raw)) "/ask " then
    if pyStrip (pyDrop (pyStrip raw) 5) = "" then .noop
    else .aiQuery (pyStrip (pyDrop (pyStrip raw) 5))
  else .run (pyStrip raw)

/-- One appended unit of the output log, classified by the role the source
gives it (the Rich style of the corresponding write). -/
inductive OutputEvent where
  | echo (s : String) : OutputEvent
  | fragment (s : String) : OutputEvent
  | confirm (s : String) : OutputEvent
  | errorEv (s : String) : OutputEvent
  | statusEv (code : Int) : OutputEvent
  deriving DecidableEq

/-- Result of spawning the external command: the child's output lines as
read by readline (each normally ending in a newline) and its exit code, or
a spawn failure message. -/
inductive ProcResult where
  | spawned (lines : List String) (exitCode : Int) : ProcResult
  | spawnErr (msg : String) : ProcResult
  deriving DecidableEq

/-- Observable outcome of one DreyCLI.run_command call: the events appended
to the output log, the working directory afterwards, the text handed to the
process spawner (none when no external process was started), whether the
app exited, and whether the log was cleared. -/
structure RunResult where
  events : List OutputEvent
  cwd : String
  spawnedCommand : Option String
  exited : Bool
  cleared : Bool
  deriving DecidableEq

/-- Leading-tilde expansion performed by the cd branch of run_command:
`~` alone and `~/...` are resolved against the home directory, anything
else is left alone. -/
def expandPath (home path : String) : String :=
  if path = "~" then home
  else if pyStartsWith path "~/" then home ++ pyDrop path 1
  else path

/-- Embedding of DreyCLI.run_command (src/drey_cli/main.py lines 438-490).
`fs cwd path` models os.chdir(path) followed by os.getcwd(): the new
working directory on success, an error description on failure.  `proc
command cwd` models subprocess.Popen of the command text through the shell
in cwd with stderr merged into stdout.  The two leading echo events are the
directory banner and the `$ command` line written for every command. -/
def run_command (fs : String → String → Except String String) (home : String)
    (proc : String → String → ProcResult) (cwd : String) (command : String) :
    RunResult :=
  let hdr : List OutputEvent :=
    [.echo ("\n  " ++ cwd ++ "\n"), .echo ("  $ " ++ command ++ "\n")]
  if pyStartsWith command "cd " then
    match fs cwd (expandPath home (pyStrip (pyDrop command 3))) with
    | .ok newCwd =>
      ⟨hdr ++ [.confirm ("  Changed to: " ++ newCwd ++ "\n")], newCwd, none, false, false⟩
    | .error e =>
      ⟨hdr ++ [.errorEv ("  Error: " ++ e ++ "\n")], cwd, none, false, false⟩
  else if command = "clear" then ⟨hdr, cwd, none, false, true⟩
  else if command = "exit" ∨ command = "quit" then ⟨hdr, cwd, none, true, false⟩
  else
    match proc command cwd with
    | .spawned lines code =>
      ⟨hdr ++ (lines.filter (fun l => l ≠ "")).map
            (fun l => .fragment ("  " ++ pyRstrip l ++ "\n"))
          ++ (if code = 0 then [] else [.statusEv code]),
        cwd, some command, false, false⟩
    | .spawnErr e =>
      ⟨hdr ++ [.errorEv ("  Error: " ++ e ++ "\n")], cwd, some command, false, false⟩

/-- Recogniser for error events. -/
def isErrorEv : OutputEvent → Bool
  | .errorEv _ => true
  | _ => false

/-- Recogniser for exit-status events. -/
def isStatusEv : OutputEvent → Bool
  | .statusEv _ => true
  | _ => false

/-- The history-navigation state of CommandInput: the history list (oldest
first, newest appended last), the recall cursor history_index (-1 when not
recalling), and the text currently shown in the input field. -/
structure InputState where
  history : List String
  history_index : Int
  value : String
  deriving DecidableEq

/-- Python history[-(i+1)]: the i-th entry counted from the newest end
(i = 0 is the newest).  The default is irrelevant at in-range indices. -/
def histAt (h : List String) (i : Nat) : String :=
  h.getD (h.length - 1 - i) ""

/-- Embedding of the "up" branch of CommandInput.on_key (src/drey_cli/main.py
lines 197-202): step the cursor one entry older unless already at the
oldest entry (or the history is empty) and show that entry. -/
def onKeyUp (s : InputState) : InputState :=
  if s.history ≠ [] ∧ s.history_index < (s.history.length : Int) - 1 then
    { s with history_index := s.history_index + 1,
             value := histAt s.history (s.history_index + 1).toNat }
  else s

/-- Embedding of the "down" branch of CommandInput.on_key (src/drey_cli/main.py
lines 203-211): step the cursor one entry newer; from the newest entry it
leaves recall mode, clearing the input; when not recalling it does
nothing. -/
def onKeyDown (s : InputState) : InputState :=
  if s.history_index > 0 then
    { s with history_index := s.history_index - 1,
             value := histAt s.history (s.history_index - 1).toNat }
  else if s.history_index = 0 then
    { s with history_index := -1, value := "" }
  else s

/-- Embedding of CommandInput.load_history (src/drey_cli/main.py lines
186-194): the last 500 lines of the history file, each stripped, blank
lines dropped. -/
def load_history (fileLines : List String) : List String :=
  (takeLast 500 fileLines).filterMap
    (fun line => if pyStrip line = "" then none else some (pyStrip line))

/-- The history append performed for every submitted command in
DreyCLI.on_input_submitted (src/drey_cli/main.py line 402). -/
def record (h : List String) (command : String) : List String :=
  h ++ [command]

/-- The COMMAND_SUGGESTIONS table of src/drey_cli/main.py lines 35-42. -/
def COMMAND_SUGGESTIONS : List (String × List String) :=
  [("git", ["git status", "git add .", "git commit -m \x27\x27", "git push",
            "git pull", "git log --oneline", "git branch", "git checkout"]),
   ("docker", ["docker ps", "docker ps -a", "docker images",
               "docker compose up -d", "docker compose down", "docker logs",
               "docker exec -it"]),
   ("system", ["htop", "df -h", "free -h", "uname -a", "uptime", "whoami",
               "pwd", "ls -la"]),
   ("network", ["ip addr", "ping", "curl", "wget", "netstat -tulpn",
                "ss -tulpn"]),
   ("files", ["ls -la", "find . -name", "grep -r", "cat", "head", "tail -f",
              "chmod", "chown"]),
   ("process", ["ps aux", "kill", "killall", "top", "htop", "pgrep",
                "pkill"])]

/-- ALL_COMMANDS of src/drey_cli/main.py lines 44-46: the category lists
concatenated in table order. -/
def ALL_COMMANDS : List String :=
  COMMAND_SUGGESTIONS.foldl (fun acc kv => acc ++ kv.2) []

/-- One turn of the history-matching loop of DreyCLI.update_suggestions:
append a history entry when it matches the input and is not already among
the matches collected so far. -/
def addHistMatch (tl : String) (acc : List String) (hc : String) : List String :=
  if pyContains (pyLower hc) tl && !(acc.contains hc) then acc ++ [hc] else acc

/-- Embedding of DreyCLI.update_suggestions (src/drey_cli/main.py lines
345-374), returning the suggestion list shown (current_suggestions):
suppressed for empty input and AI queries; otherwise case-insensitive
substring matches over ALL_COMMANDS in catalog order, then over the last 50
history entries newest first (skipping entries already collected), capped
at 8. -/
def update_suggestions (history : List String) (text : String) : List String :=
  if text = "" ∨ pyStartsWith text "?" then []
  else
    (((takeLast 50 history).reverse).foldl (addHistMatch (pyLower text))
        (ALL_COMMANDS.filter (fun cmd => pyContains (pyLower cmd) (pyLower text)))).take 8

/-- A decoded server-sent event, as far as the client inspects it: its type
discriminator and the text field of its delta object, when present. -/
structure SseEvent where
  type : String
  deltaText : Option String
  deriving DecidableEq

/-- Outcome of json.loads on one frame payload followed by the event-field
reads of the loop body: badJson when json.loads itself fails with
json.JSONDecodeError — the only exception the loop catches; raises msg
when json.loads succeeds but the payload is not an event object (an int,
null, a string, or an event whose delta is not an object), so that
event.get or the delta reads raise AttributeError or TypeError with
message msg, escaping the loop; ok when the payload is an event object,
carrying the two fields the loop reads. -/
inductive DecodeResult where
  | badJson : DecodeResult
  | raises (msg : String) : DecodeResult
  | ok (ev : SseEvent) : DecodeResult
  deriving DecidableEq

/-- Embedding of the streaming loop of AIAssistant.ask (src/drey_cli/
ai_helper.py lines 71-91) over the response's lines.  Only `data: ` frames
are considered; the `[DONE]` sentinel stops the stream; a payload that is
not valid JSON (json.JSONDecodeError) is skipped and the stream continues;
a payload that is valid JSON but not an event object raises out of the
loop to the outer `except Exception`, which yields one error fragment and
ends the generator, dropping all later frames; only content_block_delta
events with a text delta yield. -/
def process_stream (decode : String → DecodeResult) : List String → List String
  | [] => []
  | l :: ls =>
    if pyStartsWith l "data: " then
      if pyDrop l 6 = "[DONE]" then []
      else
        match decode (pyDrop l 6) with
        | .badJson => process_stream decode ls
        | .raises msg => ["⚠️  Error: " ++ msg ++ "\n"]
        | .ok ev =>
          if ev.type = "content_block_delta" then
            (match ev.deltaText with
             | some t => [t]
             | none => []) ++ process_stream decode ls
          else process_stream decode ls
    else process_stream decode ls

/-- Spec-side description of a terminating frame: a `data: ` frame whose
payload is the `[DONE]` sentinel. -/
def isDoneFrame (l : String) : Bool :=
  pyStartsWith l "data: " && pyDrop l 6 == "[DONE]"

/-- Spec-side description of the text one response line contributes: for a
`data: ` frame decoding to an event object of type content_block_delta,
its delta text. -/
def deltaOf (decode : String → DecodeResult) (l : String) : Option String :=
  if pyStartsWith l "data: " then
    match decode (pyDrop l 6) with
    | .ok ev => if ev.type = "content_block_delta" then ev.deltaText else none
    | _ => none
  else none

/-- Spec-side description of the error fragment a frame produces when its
payload is valid JSON but not an event object. -/
def crashMsg (decode : String → DecodeResult) (l : String) : Option String :=
  if pyStartsWith l "data: " then
    match decode (pyDrop l 6) with
    | .raises msg => some ("⚠️  Error: " ++ msg ++ "\n")
    | _ => none
  else none

/-- A frame whose payload raises out of the loop. -/
def isCrashFrame (decode : String → DecodeResult) (l : String) : Bool :=
  (crashMsg decode l).isSome

/-- Spec-side description of what follows the cleanly decoded part of the
stream: nothing when the frames ran out or the stream stopped at the
`[DONE]` sentinel, and the error fragment of the stopping frame when that
frame raised. -/
def streamTrailer (decode : String → DecodeResult) : List String → List String
  | [] => []
  | l :: _ => if isDoneFrame l then [] else (crashMsg decode l).toList

/-- Model of json.loads for two concrete frame payloads: `42` is valid
JSON but an int, not an event object, so the loop body's event.get raises
AttributeError; `D` stands for a well-formed content_block_delta event
carrying the text `hi`; everything else is not valid JSON. -/
def decode42 : String → DecodeResult := fun d =>
  if d = "42" then
    DecodeResult.raises "\x27int\x27 object has no attribute \x27get\x27"
  else if d = "D" then DecodeResult.ok ⟨"content_block_delta", some "hi"⟩
  else DecodeResult.badJson

/-- The four fragments AIAssistant.ask yields when ANTHROPIC_API_KEY is not
set (src/drey_cli/ai_helper.py lines 40-45). -/
def noKeyFragments : List String :=
  ["⚠️  AI not configured. Set ANTHROPIC_API_KEY environment variable.\n",
   "\nTo set it up:\n",
   "  export ANTHROPIC_API_KEY=\x27your-api-key\x27\n",
   "\nGet your API key from: https://console.anthropic.com/\n"]

/-- Outcome of the one streaming POST request AIAssistant.ask issues: a
response (status code, body text, body lines), a timeout, a connection
failure, or any other error. -/
inductive NetResult where
  | ok (status : Nat) (body : String) (lines : List String) : NetResult
  | timeout : NetResult
  | connectErr : NetResult
  | otherErr (msg : String) : NetResult
  deriving DecidableEq

/-- Embedding of AIAssistant.ask (src/drey_cli/ai_helper.py lines 38-91):
the fragments yielded and the number of network requests issued.  With no
API key it yields the four configuration-help fragments and issues no
request; otherwise it issues exactly one request and reports a non-200
status, a timeout, a connection failure or another error as a single
fragment, or streams the response lines.  NetResult decides the whole
request: the code can also time out or fail mid-stream after partial
fragments, a path not modelled here. -/
def ask (apiKey question : String) (net : NetResult)
    (decode : String → DecodeResult) : List String × Nat :=
  if apiKey = "" then (noKeyFragments, 0)
  else
    match net with
    | .ok status body lines =>
      if status ≠ 200 then
        (["⚠️  API Error: " ++ toString status ++ "\n" ++ body ++ "\n"], 1)
      else (process_stream decode lines, 1)
    | .timeout => (["⚠️  Request timed out. Please try again.\n"], 1)
    | .connectErr =>
      (["⚠️  Could not connect to AI service. Check your internet connection.\n"], 1)
    | .otherErr msg => (["⚠️  Error: " ++ msg ++ "\n"], 1)

/-- The QUICK_SUGGESTIONS table of src/drey_cli/ai_helper.py lines 102-123,
in insertion order. -/
def QUICK_SUGGESTIONS : List (String × String) :=
  [("find large files", "find . -type f -size +100M -exec ls -lh \x7b\x7d \\;"),
   ("disk usage", "du -sh */ | sort -rh | head -20"),
   ("memory usage", "free -h && echo \x27---\x27 && ps aux --sort=-%mem | head -10"),
   ("cpu usage", "top -bn1 | head -20"),
   ("running processes", "ps aux --sort=-%cpu | head -20"),
   ("listening ports", "ss -tulpn"),
   ("docker running", "docker ps --format \x27table \x7b\x7b.Names\x7d\x7d\t\x7b\x7b.Status\x7d\x7d\t\x7b\x7b.Ports\x7d\x7d\x27"),
   ("docker logs", "docker logs --tail 100 -f CONTAINER_NAME"),
   ("git status", "git status -sb"),
   ("git log", "git log --oneline --graph -20"),
   ("find text in files", "grep -rn \x27SEARCH_TERM\x27 ."),
   ("watch file changes", "watch -n 1 \x27ls -la\x27"),
   ("system info", "uname -a && lsb_release -a"),
   ("network info", "ip addr show && echo \x27---\x27 && ip route"),
   ("kill process", "pkill -f PROCESS_NAME  # or: kill -9 PID"),
   ("compress folder", "tar -czvf archive.tar.gz FOLDER/"),
   ("extract archive", "tar -xzvf archive.tar.gz"),
   ("file permissions", "chmod 755 FILE  # rwxr-xr-x"),
   ("change owner", "chown user:group FILE"),
   ("cron jobs", "crontab -l  # list | crontab -e  # edit")]

/-- The per-key test of get_quick_suggestion: the key occurs in the
lower-cased query, or every whitespace-separated word of the key does. -/
def quickMatches (ql : String) (key : String) : Bool :=
  pyContains ql key || (pySplit key).all (fun w => pyContains ql w)

/-- Embedding of get_quick_suggestion (src/drey_cli/ai_helper.py lines
126-132): the command of the first matching key in table order, if any. -/
def get_quick_suggestion (query : String) : Option String :=
  (QUICK_SUGGESTIONS.find? (fun kv => quickMatches (pyLower query) kv.1)).map
    (fun kv => kv.2)

/-- List.isPrefixOf agrees with the leading-sublist relation. -/
lemma isPrefixOf_eq_true_iff {α : Type} [BEq α] [LawfulBEq α] :
    ∀ (l₁ l₂ : List α), List.isPrefixOf l₁ l₂ = true ↔ l₁ <+: l₂ := by
  intro l₁
  induction l₁ with
  | nil =>
    intro l₂
    simp [List.isPrefixOf]
  | cons a l ih =>
    intro l₂
    cases l₂ with
    | nil => simp [List.isPrefixOf]
    | cons b l₂ => simp [List.isPrefixOf, List.cons_prefix_cons, ih, beq_iff_eq]

/-- A string starting with `?` is not empty. -/
lemma ne_empty_of_startsWith_q (c : String) (h : pyStartsWith c "?" = true) :
    c ≠ "" := by
  intro he
  rw [he] at h
  exact absurd h (by decide)

/-- A string whose lower-casing starts with `/ask ` is not empty. -/
lemma ne_empty_of_lower_ask (c : String)
    (h : pyStartsWith (pyLower c) "/ask " = true) : c ≠ "" := by
  intro he
  rw [he] at h
  exact absurd h (by decide)

/-- A string whose lower-casing starts with `/ask ` does not start with `?`. -/
lemma not_startsWith_q_of_lower_ask (c : String)
    (h : pyStartsWith (pyLower c) "/ask " = true) :
    pyStartsWith c "?" = false := by
  by_contra hq
  rw [Bool.not_eq_false] at hq
  unfold pyStartsWith at hq h
  have hld : (pyLower c).data = c.data.map pyLowerChar := rfl
  rw [hld] at h
  cases hd : c.data with
  | nil =>
    rw [hd] at hq
    exact absurd hq (by decide)
  | cons c0 cs =>
    rw [hd] at hq h
    have hq0 : c0 = '?' := by
      have := (isPrefixOf_eq_true_iff _ _).mp hq
      rw [show ("?" : String).data = ['?'] from rfl] at this
      exact (List.cons_prefix_cons.mp this).1.symm
    subst hq0
    have := (isPrefixOf_eq_true_iff _ _).mp h
    rw [show ("/ask " : String).data = ['/', 'a', 's', 'k', ' '] from rfl,
        List.map_cons] at this
    have h0 := (List.cons_prefix_cons.mp this).1
    rw [show pyLowerChar '?' = '?' from by decide] at h0
    exact absurd h0 (by decide)

/-- C1: a submitted line whose trimmed form starts with `?`, or
case-insensitively with `/ask `, and whose remainder after stripping that
prefix and surrounding whitespace is non-empty, is dispatched as an AI
query whose question text is exactly that trimmed remainder. -/
theorem claim_c1_aiQuery (raw : String) :
    (pyStartsWith (pyStrip raw) "?" = true →
      pyStrip (pyDrop (pyStrip raw) 1) ≠ "" →
      on_input_submitted raw = .aiQuery (pyStrip (pyDrop (pyStrip raw) 1))) ∧
    (pyStartsWith (pyLower (pyStrip raw)) "/ask " = true →
      pyStrip (pyDrop (pyStrip raw) 5) ≠ "" →
      on_input_submitted raw = .aiQuery (pyStrip (pyDrop (pyStrip raw) 5))) := by
  constructor
  · intro h1 h2
    have h0 := ne_empty_of_startsWith_q _ h1
    simp [on_input_submitted, h0, h1, h2]
  · intro h1 h2
    have h0 := ne_empty_of_lower_ask _ h1
    have hq := not_startsWith_q_of_lower_ask _ h1
    simp [on_input_submitted, h0, h1, h2, hq]

/-- Witness for C1 at the inputs `  ? disk  usage ` and `/ASK hi`. -/
theorem claim_c1_aiQuery_witness :
    on_input_submitted "  ? disk  usage " = Dispatch.aiQuery "disk  usage" ∧
    on_input_submitted "/ASK hi" = Dispatch.aiQuery "hi" := by
  constructor
  · exact ((claim_c1_aiQuery "  ? disk  usage ").1 (by decide) (by decide)).trans
      (by decide)
  · exact ((claim_c1_aiQuery "/ASK hi").2 (by decide) (by decide)).trans (by decide)

/-- C2 counterexample: the submitted line `?` is non-empty after trimming
and is not an AI query (its remainder is empty), yet it is not executed as
a shell command with the full line text — the code does nothing with it. -/
theorem claim_c2_counterexample :
    pyStrip "?" ≠ "" ∧ on_input_submitted "?" = Dispatch.noop ∧
    Dispatch.noop ≠ Dispatch.run (pyStrip "?") := by
  decide

/-- C2 as amended: a submitted non-empty trimmed line that does not start
with `?` nor case-insensitively with `/ask ` goes to run_command with the
trimmed line as the command text; there, `clear`, `exit`, `quit` (exact,
case-sensitive) and `cd `-prefixed lines are handled as built-ins with no
external process, and every other such line is passed verbatim to the
process spawner.  (Lines starting with `?` or `/ask ` whose remainder is
empty are no-ops, not shell commands.) -/
theorem claim_c2_rest (raw : String)
    (h0 : pyStrip raw ≠ "")
    (h1 : pyStartsWith (pyStrip raw) "?" = false)
    (h2 : pyStartsWith (pyLower (pyStrip raw)) "/ask " = false) :
    on_input_submitted raw = .run (pyStrip raw) ∧
    ∀ fs home proc cwd,
      (pyStartsWith (pyStrip raw) "cd " = true →
        (run_command fs home proc cwd (pyStrip raw)).spawnedCommand = none) ∧
      (pyStrip raw = "clear" →
        (run_command fs home proc cwd (pyStrip raw)).cleared = true ∧
        (run_command fs home proc cwd (pyStrip raw)).spawnedCommand = none) ∧
      ((pyStrip raw = "exit" ∨ pyStrip raw = "quit") →
        (run_command fs home proc cwd (pyStrip raw)).exited = true ∧
        (run_command fs home proc cwd (pyStrip raw)).spawnedCommand = none) ∧
      (pyStartsWith (pyStrip raw) "cd " = false → pyStrip raw ≠ "clear" →
        pyStrip raw ≠ "exit" → pyStrip raw ≠ "quit" →
        (run_command fs home proc cwd (pyStrip raw)).spawnedCommand
          = some (pyStrip raw)) := by
  refine ⟨by simp [on_input_submitted, h0, h1, h2], ?_⟩
  intro fs home proc cwd
  refine ⟨?_, ?_, ?_, ?_⟩
  · intro hcd
    cases hfs : fs cwd (expandPath home (pyStrip (pyDrop (pyStrip raw) 3))) <;>
      simp [run_command, hcd, hfs]
  · intro hcl
    simp [run_command, hcl, show pyStartsWith "clear" "cd " = false from by decide]
  · rintro (hex | hqt)
    · simp [run_command, hex,
        show pyStartsWith "exit" "cd " = false from by decide]
    · simp [run_command, hqt,
        show pyStartsWith "quit" "cd " = false from by decide]
  · intro hcd hcl hex hqt
    cases hp : proc (pyStrip raw) cwd <;>
      simp [run_command, hcd, hcl, hex, hqt, hp]

/-- Witness for C2 (amended) at the inputs `echo hi`, `clear` and `exit`. -/
theorem claim_c2_rest_witness :
    on_input_submitted "echo hi" = Dispatch.run "echo hi" ∧
    (run_command (fun _ _ => Except.error "e") "/home/u"
        (fun _ _ => ProcResult.spawned ["hi\n"] 0) "/w" "echo hi").spawnedCommand
      = some "echo hi" ∧
    (run_command (fun _ _ => Except.error "e") "/home/u"
        (fun _ _ => ProcResult.spawned [] 0) "/w" "clear").cleared = true ∧
    (run_command (fun _ _ => Except.error "e") "/home/u"
        (fun _ _ => ProcResult.spawned [] 0) "/w" "exit").exited = true := by
  have ha := claim_c2_rest "echo hi" (by decide) (by decide) (by decide)
  have hb := claim_c2_rest "clear" (by decide) (by decide) (by decide)
  have hc := claim_c2_rest "exit" (by decide) (by decide) (by decide)
  refine ⟨ha.1.trans (by decide), ?_, ?_, ?_⟩
  · have := (ha.2 (fun _ _ => Except.error "e") "/home/u"
      (fun _ _ => ProcResult.spawned ["hi\n"] 0) "/w").2.2.2
      (by decide) (by decide) (by decide) (by decide)
    simpa using this
  · have := ((hb.2 (fun _ _ => Except.error "e") "/home/u"
      (fun _ _ => ProcResult.spawned [] 0) "/w").2.1 (by decide)).1
    simpa using this
  · have := ((hc.2 (fun _ _ => Except.error "e") "/home/u"
      (fun _ _ => ProcResult.spawned [] 0) "/w").2.2.1 (Or.inl (by decide))).1
    simpa using this

/-- A prefix of a character list is found by segIn. -/
lemma segIn_of_leading {n h : List Char} (hp : n <+: h) :
    segIn n h = true := by
  cases h with
  | nil =>
    rw [List.prefix_nil.mp hp]
    rfl
  | cons c cs =>
    unfold segIn
    rw [(isPrefixOf_eq_true_iff _ _).mpr hp]
    simp

/-- A contiguous sublist of a character list is found by segIn. -/
lemma segIn_of_middle {n h : List Char} (hin : n <:+: h) :
    segIn n h = true := by
  obtain ⟨s, t, hst⟩ := hin
  induction s generalizing h with
  | nil =>
    subst hst
    exact segIn_of_leading ⟨t, by simp⟩
  | cons a s ih =>
    subst hst
    have hstep : segIn n ((a :: s) ++ n ++ t)
        = (List.isPrefixOf n (a :: (s ++ n ++ t)) || segIn n (s ++ n ++ t)) :=
      rfl
    rw [hstep, ih rfl]
    simp

/-- A string occurs in any string of which it is the middle part. -/
lemma pyContains_middle (a b c : String) : pyContains (a ++ b ++ c) b = true := by
  unfold pyContains
  rw [String.data_append, String.data_append]
  exact segIn_of_middle (List.infix_append _ _ _)

/-- C4: for a `cd ` command, when the directory change fails the working
directory is unchanged, no process session is created, the engine does not
exit, and exactly one error event — containing the failure description — is
appended; when it succeeds the working directory becomes the new directory
and a confirmation event is appended, again with no session. -/
theorem claim_c4_cd (fs : String → String → Except String String)
    (home : String) (proc : String → String → ProcResult) (cwd command : String)
    (hcd : pyStartsWith command "cd " = true) :
    (∀ e, fs cwd (expandPath home (pyStrip (pyDrop command 3))) = .error e →
      (run_command fs home proc cwd command).cwd = cwd ∧
      (run_command fs home proc cwd command).spawnedCommand = none ∧
      (run_command fs home proc cwd command).exited = false ∧
      (run_command fs home proc cwd command).events.filter isErrorEv
        = [.errorEv ("  Error: " ++ e ++ "\n")] ∧
      pyContains ("  Error: " ++ e ++ "\n") e = true) ∧
    (∀ d, fs cwd (expandPath home (pyStrip (pyDrop command 3))) = .ok d →
      (run_command fs home proc cwd command).cwd = d ∧
      (run_command fs home proc cwd command).spawnedCommand = none ∧
      OutputEvent.confirm ("  Changed to: " ++ d ++ "\n")
        ∈ (run_command fs home proc cwd command).events) := by
  constructor
  · intro e he
    refine ⟨?_, ?_, ?_, ?_, pyContains_middle "  Error: " e "\n"⟩ <;>
      simp [run_command, hcd, he, List.filter, isErrorEv]
  · intro d hd
    refine ⟨?_, ?_, ?_⟩ <;> simp [run_command, hcd, hd]

/-- Witness for C4: `cd /nope` against a failing filesystem leaves the
directory alone and appends one error event; `cd /tmp` against a
succeeding filesystem updates it and appends a confirmation. -/
theorem claim_c4_cd_witness :
    (run_command (fun _ _ => Except.error "no such directory") "/home/u"
        (fun _ _ => ProcResult.spawned [] 0) "/w" "cd /nope").cwd = "/w" ∧
    (run_command (fun _ _ => Except.error "no such directory") "/home/u"
        (fun _ _ => ProcResult.spawned [] 0) "/w" "cd /nope").events.filter isErrorEv
      = [.errorEv ("  Error: " ++ "no such directory" ++ "\n")] ∧
    (run_command (fun _ _ => Except.ok "/tmp") "/home/u"
        (fun _ _ => ProcResult.spawned [] 0) "/w" "cd /tmp").cwd = "/tmp" := by
  have h1 := (claim_c4_cd (fun _ _ => Except.error "no such directory") "/home/u"
    (fun _ _ => ProcResult.spawned [] 0) "/w" "cd /nope" (by decide)).1
    "no such directory" rfl
  have h2 := (claim_c4_cd (fun _ _ => Except.ok "/tmp") "/home/u"
    (fun _ _ => ProcResult.spawned [] 0) "/w" "cd /tmp" (by decide)).2
    "/tmp" rfl
  exact ⟨h1.1, h1.2.2.2.1, h2.1⟩

/-- C5: for an external command whose process spawns and exits, the
appended events are the (non-status) header and output-fragment events
followed by no status event when the exit code is zero, and by exactly one
status event carrying the exit code when it is non-zero. -/
theorem claim_c5_exit_status (fs : String → String → Except String String)
    (home : String) (proc : String → String → ProcResult) (cwd command : String)
    (lines : List String) (code : Int)
    (hcd : pyStartsWith command "cd " = false) (hcl : command ≠ "clear")
    (hex : command ≠ "exit") (hqt : command ≠ "quit")
    (hp : proc command cwd = .spawned lines code) :
    ∃ pre, (run_command fs home proc cwd command).events
        = pre ++ (if code = 0 then [] else [.statusEv code])
      ∧ ∀ ev ∈ pre, isStatusEv ev = false := by
  refine ⟨[OutputEvent.echo ("\n  " ++ cwd ++ "\n"),
           OutputEvent.echo ("  $ " ++ command ++ "\n")]
      ++ (lines.filter (fun l => l ≠ "")).map
           (fun l => OutputEvent.fragment ("  " ++ pyRstrip l ++ "\n")), ?_, ?_⟩
  · simp [run_command, hcd, hcl, hex, hqt, hp]
  · intro ev hev
    rcases List.mem_append.mp hev with hev | hev
    · simp only [List.mem_cons, List.not_mem_nil, or_false] at hev
      rcases hev with rfl | rfl <;> rfl
    · obtain ⟨l, _, hl⟩ := List.mem_map.mp hev
      rw [← hl]
      rfl

/-- Witness for C5: `false` with exit code 1 yields exactly one trailing
status event; `echo hi` with exit code 0 yields none. -/
theorem claim_c5_exit_status_witness :
    (∃ pre, (run_command (fun _ _ => Except.error "e") "/h"
          (fun _ _ => ProcResult.spawned [] 1) "/w" "false").events
        = pre ++ (if (1 : Int) = 0 then [] else [.statusEv 1])
      ∧ ∀ ev ∈ pre, isStatusEv ev = false) ∧
    (∃ pre, (run_command (fun _ _ => Except.error "e") "/h"
          (fun _ _ => ProcResult.spawned ["hi\n"] 0) "/w" "echo hi").events
        = pre ++ (if (0 : Int) = 0 then [] else [.statusEv 0])
      ∧ ∀ ev ∈ pre, isStatusEv ev = false) :=
  ⟨claim_c5_exit_status (fun _ _ => Except.error "e") "/h"
      (fun _ _ => ProcResult.spawned [] 1) "/w" "false" [] 1
      (by decide) (by decide) (by decide) (by decide) rfl,
   claim_c5_exit_status (fun _ _ => Except.error "e") "/h"
      (fun _ _ => ProcResult.spawned ["hi\n"] 0) "/w" "echo hi" ["hi\n"] 0
      (by decide) (by decide) (by decide) (by decide) rfl⟩

/-- Unfolding of onKeyUp on a literal state. -/
lemma onKeyUp_unfold (h : List String) (i : Int) (v : String) :
    onKeyUp ⟨h, i, v⟩
      = if h ≠ [] ∧ i < (h.length : Int) - 1
        then ⟨h, i + 1, histAt h (i + 1).toNat⟩ else ⟨h, i, v⟩ := rfl

/-- Unfolding of onKeyDown on a literal state. -/
lemma onKeyDown_unfold (h : List String) (i : Int) (v : String) :
    onKeyDown ⟨h, i, v⟩
      = if i > 0 then ⟨h, i - 1, histAt h (i - 1).toNat⟩
        else if i = 0 then ⟨h, -1, ""⟩ else ⟨h, i, v⟩ := rfl

/-- K presses of "up" from a fresh cursor land on cursor position
min K n - 1 and show that entry. -/
lemma onKeyUp_iter (h : List String) (v : String) (hne : h ≠ []) :
    ∀ K, 1 ≤ K → onKeyUp^[K] ⟨h, -1, v⟩
      = ⟨h, ((min K h.length - 1 : Nat) : Int), histAt h (min K h.length - 1)⟩ := by
  have hl : 0 < h.length := List.length_pos.mpr hne
  intro K
  induction K with
  | zero => omega
  | succ K ih =>
    intro _
    by_cases hK1 : 1 ≤ K
    · rw [Function.iterate_succ_apply', ih hK1, onKeyUp_unfold]
      by_cases hKn : K < h.length
      · rw [if_pos ⟨hne, by omega⟩,
          show (((min K h.length - 1 : Nat) : Int) + 1)
              = ((min (K + 1) h.length - 1 : Nat) : Int) from by omega,
          show ((min (K + 1) h.length - 1 : Nat) : Int).toNat
              = min (K + 1) h.length - 1 from by omega]
      · rw [if_neg (by rintro ⟨-, hlt⟩; omega),
          show min K h.length - 1 = min (K + 1) h.length - 1 from by omega]
    · have hK0 : K = 0 := by omega
      subst hK0
      rw [Function.iterate_one, onKeyUp_unfold, if_pos ⟨hne, by omega⟩,
        show ((-1 : Int) + 1) = ((min 1 h.length - 1 : Nat) : Int) from by omega,
        show ((min 1 h.length - 1 : Nat) : Int).toNat = min 1 h.length - 1 from
          by omega]

/-- j presses of "down" from cursor position m (j ≤ m) land on position
m - j and show that entry, provided the shown value already is that of
position m. -/
lemma onKeyDown_iter (h : List String) (m : Nat) :
    ∀ j, j ≤ m → onKeyDown^[j] ⟨h, (m : Int), histAt h m⟩
      = ⟨h, ((m - j : Nat) : Int), histAt h (m - j)⟩ := by
  intro j
  induction j with
  | zero => simp
  | succ j ih =>
    intro hj
    rw [Function.iterate_succ_apply', ih (by omega), onKeyDown_unfold,
      if_pos (by omega : ((m - j : Nat) : Int) > 0),
      show (((m - j : Nat) : Int) - 1) = ((m - (j + 1) : Nat) : Int) from by omega,
      show ((m - (j + 1) : Nat) : Int).toNat = m - (j + 1) from by omega]

/-- One press of "down" at cursor position 0 leaves recall mode and clears
the input field. -/
lemma onKeyDown_exit (h : List String) (v : String) :
    onKeyDown ⟨h, 0, v⟩ = ⟨h, -1, ""⟩ := by
  rw [onKeyDown_unfold, if_neg (by omega), if_pos rfl]

/-- "down" presses while not recalling are no-ops. -/
lemma onKeyDown_noop_iter (h : List String) (v : String) :
    ∀ k, onKeyDown^[k] ⟨h, -1, v⟩ = ⟨h, -1, v⟩ := by
  intro k
  induction k with
  | zero => rfl
  | succ k ih =>
    rw [Function.iterate_succ_apply, onKeyDown_unfold, if_neg (by omega),
      if_neg (by omega), ih]

/-- C6: for a non-empty history of length n and K ≥ 1 presses of "up"
(recall Older) from a fresh cursor, the shown entry is histAt h (min K n -
1), i.e. the K-th most recent entry, clamped to the oldest; at the oldest
boundary a further "up" is a no-op; j following "down" (recall Newer)
presses (j ≤ min K n - 1) retrace to histAt h (min K n - 1 - j), exactly
the entry the (min K n - j)-th "up" press had shown; the next "down" press
leaves recall mode returning empty text and further "down" presses are
no-ops; from that state "up" applies again, showing the newest entry. -/
theorem claim_c6_history_recall (h : List String) (v : String) (K : Nat)
    (hne : h ≠ []) (hK : 1 ≤ K) :
    onKeyUp^[K] ⟨h, -1, v⟩
        = ⟨h, ((min K h.length - 1 : Nat) : Int), histAt h (min K h.length - 1)⟩
    ∧ (h.length ≤ K → onKeyUp (onKeyUp^[K] ⟨h, -1, v⟩) = onKeyUp^[K] ⟨h, -1, v⟩)
    ∧ (∀ j, j ≤ min K h.length - 1 →
        onKeyDown^[j] (onKeyUp^[K] ⟨h, -1, v⟩)
          = ⟨h, ((min K h.length - 1 - j : Nat) : Int),
              histAt h (min K h.length - 1 - j)⟩)
    ∧ (∀ j, min K h.length - 1 + 1 ≤ j →
        onKeyDown^[j] (onKeyUp^[K] ⟨h, -1, v⟩) = ⟨h, -1, ""⟩)
    ∧ onKeyUp ⟨h, -1, ""⟩ = ⟨h, 0, histAt h 0⟩ := by
  have hl : 0 < h.length := List.length_pos.mpr hne
  have hup := onKeyUp_iter h v hne K hK
  refine ⟨hup, ?_, ?_, ?_, ?_⟩
  · intro hcl
    rw [hup, onKeyUp_unfold, if_neg (by rintro ⟨-, hlt⟩; omega)]
  · intro j hj
    rw [hup]
    exact onKeyDown_iter h (min K h.length - 1) j hj
  · intro j hj
    obtain ⟨k, hk⟩ := Nat.exists_eq_add_of_le hj
    rw [hup, hk, Nat.add_comm, Function.iterate_add_apply,
        Function.iterate_succ_apply',
        onKeyDown_iter h (min K h.length - 1) (min K h.length - 1) le_rfl,
        show ((min K h.length - 1 - (min K h.length - 1) : Nat) : Int) = 0 from
          by omega,
        onKeyDown_exit, onKeyDown_noop_iter]
  · rw [onKeyUp_unfold, if_pos ⟨hne, by omega⟩,
      show ((-1 : Int) + 1) = ((0 : Nat) : Int) from by omega,
      show (((0 : Nat) : Int)).toNat = 0 from by omega]
    rfl

/-- Witness for C6 with history [a, b, c] and K = 5 "up" presses: the value
clamps to the oldest entry a, two "down" presses retrace to the newest
entry c, and a third leaves recall mode with empty text. -/
theorem claim_c6_history_recall_witness :
    onKeyUp^[5] ⟨["a", "b", "c"], -1, ""⟩ = ⟨["a", "b", "c"], 2, "a"⟩ ∧
    onKeyDown^[2] (onKeyUp^[5] ⟨["a", "b", "c"], -1, ""⟩)
      = ⟨["a", "b", "c"], 0, "c"⟩ ∧
    onKeyDown^[3] (onKeyUp^[5] ⟨["a", "b", "c"], -1, ""⟩)
      = ⟨["a", "b", "c"], -1, ""⟩ := by
  have hc := claim_c6_history_recall ["a", "b", "c"] "" 5 (by decide) (by decide)
  refine ⟨hc.1.trans (by decide), ?_, ?_⟩
  · exact (hc.2.2.1 2 (by decide)).trans (by decide)
  · exact (hc.2.2.2.1 3 (by decide)).trans (by decide)

/-- C3 counterexample: with no credential configured, ask does not yield
exactly one fragment — it yields four. -/
theorem claim_c3_counterexample :
    ¬ ((ask "" "hi" NetResult.timeout (fun _ => DecodeResult.badJson)).1.length
        = 1) := by
  decide

/-- C3 as amended: with no credential configured, ask yields exactly the
four configuration-help fragments (in order) describing how to configure
the credential, then terminates, and no network request is issued. -/
theorem claim_c3_noKey (question : String) (net : NetResult)
    (decode : String → DecodeResult) :
    ask "" question net decode = (noKeyFragments, 0)
    ∧ noKeyFragments.length = 4 :=
  ⟨rfl, rfl⟩

/-- C8 counterexample: the frame `data: 42` carries a payload that is not
decodable as a structured event — json.loads returns an int, and reading
.get from it raises — yet it is not skipped and the stream does not
continue: one error fragment is yielded and the generator ends, dropping
the following well-formed delta frame, which alone would have yielded its
text. -/
theorem claim_c8_counterexample :
    process_stream decode42 ["data: 42", "data: D"]
      = ["⚠️  Error: \x27int\x27 object has no attribute \x27get\x27\n"]
    ∧ process_stream decode42 ["data: D"] = ["hi"] := by
  decide

/-- C8 as amended: the fragments the streaming loop yields are exactly the
delta texts of the content_block_delta events among the `data: ` frames
before the first terminating frame, in arrival order and verbatim; a frame
whose payload is not valid JSON (json.JSONDecodeError) is skipped and the
stream continues; the `[DONE]` sentinel ends the stream silently; and a
frame whose payload is valid JSON but not an event object ends the stream
with a single error fragment, dropping all later frames. -/
theorem claim_c8_stream (decode : String → DecodeResult) (lines : List String) :
    process_stream decode lines
      = (lines.takeWhile
            (fun l => !(isDoneFrame l || isCrashFrame decode l))).filterMap
          (deltaOf decode)
        ++ streamTrailer decode
            (lines.dropWhile
              (fun l => !(isDoneFrame l || isCrashFrame decode l))) := by
  induction lines with
  | nil => rfl
  | cons l ls ih =>
    by_cases hd : pyStartsWith l "data: " = true
    · by_cases hdone : pyDrop l 6 = "[DONE]"
      · simp [process_stream, isDoneFrame, isCrashFrame, crashMsg, deltaOf,
          streamTrailer, hd, hdone]
      · cases hdec : decode (pyDrop l 6) with
        | badJson =>
          simp [process_stream, isDoneFrame, isCrashFrame, crashMsg, deltaOf,
            streamTrailer, hd, hdone, hdec, ih]
        | raises msg =>
          simp [process_stream, isDoneFrame, isCrashFrame, crashMsg, deltaOf,
            streamTrailer, hd, hdone, hdec]
        | ok ev =>
          by_cases hty : ev.type = "content_block_delta"
          · cases hdt : ev.deltaText with
            | none =>
              simp [process_stream, isDoneFrame, isCrashFrame, crashMsg,
                deltaOf, streamTrailer, hd, hdone, hdec, hty, hdt, ih]
            | some t =>
              simp [process_stream, isDoneFrame, isCrashFrame, crashMsg,
                deltaOf, streamTrailer, hd, hdone, hdec, hty, hdt, ih]
          · simp [process_stream, isDoneFrame, isCrashFrame, crashMsg,
              deltaOf, streamTrailer, hd, hdone, hdec, hty, ih]
    · simp [process_stream, isDoneFrame, isCrashFrame, crashMsg, deltaOf,
        streamTrailer, hd, ih]

/-- C9 counterexample: a 500-entry history buffer grows to 501 entries on
record — the oldest entry is not discarded, so no cap of 500 is
maintained after the initial import. -/
theorem claim_c9_counterexample :
    (record (List.replicate 500 "x") "y").length = 501 ∧
    ¬ ((record (List.replicate 500 "x") "y").length ≤ 500) := by
  have hlen : (record (List.replicate 500 "x") "y").length = 501 := by
    unfold record
    rw [List.length_append, List.length_replicate]
    rfl
  rw [hlen]
  omega

/-- C9 as amended: the initial import is capped at 500 entries, but record
appends without discarding, so after k records the buffer holds its
initial length plus k entries — it is not kept within any fixed cap. -/
theorem claim_c9_growth (fileLines h : List String) (c : String) (k : Nat) :
    (load_history fileLines).length ≤ 500
    ∧ record h c = h ++ [c]
    ∧ ((fun hh => record hh c)^[k] h).length = h.length + k := by
  refine ⟨?_, rfl, ?_⟩
  · have h1 := List.length_filterMap_le
      (fun line => if pyStrip line = "" then none else some (pyStrip line))
      (takeLast 500 fileLines)
    have h2 : (takeLast 500 fileLines).length ≤ 500 := by
      unfold takeLast
      rw [List.length_drop]
      omega
    calc (load_history fileLines).length
        ≤ (takeLast 500 fileLines).length := h1
      _ ≤ 500 := h2
  · induction k with
    | zero => simp
    | succ k ih =>
      rw [Function.iterate_succ_apply']
      show (((fun hh => record hh c)^[k] h) ++ [c]).length = h.length + (k + 1)
      rw [List.length_append, ih]
      rfl

/-- The history-matching fold only ever appends: its result is the
accumulator followed by a duplicate-free batch of history entries, none of
which was already accumulated, in the order (a sublist) of the traversed
history. -/
lemma foldl_addHistMatch (tl : String) :
    ∀ (l acc : List String), ∃ extra,
      l.foldl (addHistMatch tl) acc = acc ++ extra ∧ extra.Nodup ∧
      (∀ x ∈ extra, x ∉ acc) ∧ extra.Sublist l := by
  intro l
  induction l with
  | nil =>
    intro acc
    exact ⟨[], by simp, by simp, by simp, by simp⟩
  | cons a l ih =>
    intro acc
    rw [List.foldl_cons]
    by_cases hc : (pyContains (pyLower a) tl && !(acc.contains a)) = true
    · have hstep : addHistMatch tl acc a = acc ++ [a] := by
        rw [addHistMatch, if_pos hc]
      obtain ⟨extra, he, hnd, hni, hsub⟩ := ih (acc ++ [a])
      have hna : a ∉ acc := by
        have := (Bool.and_eq_true _ _).mp hc
        simpa using this.2
      refine ⟨a :: extra, ?_, ?_, ?_, List.Sublist.cons₂ a hsub⟩
      · rw [hstep, he, List.append_assoc]
        rfl
      · rw [List.nodup_cons]
        exact ⟨fun hmem => (hni a hmem) (by simp), hnd⟩
      · intro x hx
        rcases List.mem_cons.mp hx with rfl | hx
        · exact hna
        · intro hxa
          exact (hni x hx) (List.mem_append.mpr (Or.inl hxa))
    · have hstep : addHistMatch tl acc a = acc := by
        rw [addHistMatch, if_neg hc]
      obtain ⟨extra, he, hnd, hni, hsub⟩ := ih acc
      exact ⟨extra, by rw [hstep, he], hnd, hni, hsub.cons a⟩

/-- C7 counterexample: the catalog lists `htop` under both system and
process, and catalog matches are not deduplicated, so the suggestion list
for input `htop` (with empty history) contains a duplicate entry. -/
theorem claim_c7_counterexample :
    update_suggestions [] "htop" = ["htop", "htop"] ∧
    ¬ (update_suggestions [] "htop").Nodup := by
  decide

/-- C7 as amended: suggestions are suppressed (empty result) for empty
input and input starting with the AI-query marker `?`; otherwise the
result is capped at 8 entries and consists of the catalog matches, in
catalog order (with duplicates when the catalog itself lists a command
under several categories), followed by history matches that are
duplicate-free, absent from the catalog matches, and ordered most recent
first. -/
theorem claim_c7_suggestions (history : List String) (text : String) :
    ((text = "" ∨ pyStartsWith text "?" = true) →
      update_suggestions history text = [])
    ∧ (update_suggestions history text).length ≤ 8
    ∧ (text ≠ "" → pyStartsWith text "?" = false →
        ∃ histPart,
          update_suggestions history text
            = ((ALL_COMMANDS.filter
                  (fun cmd => pyContains (pyLower cmd) (pyLower text)))
                ++ histPart).take 8
          ∧ histPart.Nodup
          ∧ (∀ x ∈ histPart,
              x ∉ ALL_COMMANDS.filter
                (fun cmd => pyContains (pyLower cmd) (pyLower text)))
          ∧ histPart.Sublist ((takeLast 50 history).reverse)) := by
  refine ⟨?_, ?_, ?_⟩
  · intro hc
    rw [update_suggestions, if_pos hc]
  · rw [update_suggestions]
    by_cases hc : text = "" ∨ pyStartsWith text "?" = true
    · rw [if_pos hc]
      simp
    · rw [if_neg hc, List.length_take]
      omega
  · intro h1 h2
    obtain ⟨extra, he, hnd, hni, hsub⟩ := foldl_addHistMatch (pyLower text)
      ((takeLast 50 history).reverse)
      (ALL_COMMANDS.filter (fun cmd => pyContains (pyLower cmd) (pyLower text)))
    refine ⟨extra, ?_, hnd, hni, hsub⟩
    rw [update_suggestions, if_neg (by rintro (hc | hc) <;> simp_all), he]

/-- Witness for C7 at the suppressed input `?` and the input `git` (no
history). -/
theorem claim_c7_suggestions_witness :
    update_suggestions ["x"] "?" = []
    ∧ (update_suggestions [] "git").length ≤ 8
    ∧ ∃ histPart, update_suggestions [] "git"
        = ((ALL_COMMANDS.filter
              (fun cmd => pyContains (pyLower cmd) (pyLower "git")))
            ++ histPart).take 8 := by
  refine ⟨(claim_c7_suggestions ["x"] "?").1 (Or.inr (by decide)),
    (claim_c7_suggestions [] "git").2.1, ?_⟩
  obtain ⟨histPart, he, -, -, -⟩ :=
    (claim_c7_suggestions [] "git").2.2 (by decide) (by decide)
  exact ⟨histPart, he⟩

/-- The first match in a list is what find? returns. -/
lemma find?_first {α : Type} (p : α → Bool) (l1 : List α) (a : α) (l2 : List α)
    (h1 : ∀ x ∈ l1, p x = false) (h2 : p a = true) :
    List.find? p (l1 ++ a :: l2) = some a := by
  induction l1 with
  | nil =>
    simp [List.find?, h2]
  | cons b l1 ih =>
    have hb : p b = false := h1 b (by simp)
    rw [List.cons_append, List.find?_cons_of_neg _ (by simp [hb])]
    exact ih (fun x hx => h1 x (by simp [hx]))

/-- C10: get_quick_suggestion returns none exactly when no key of the
quick-suggestion table matches the lower-cased question (key contained in
it, or every whitespace-separated word of the key contained in it), and
otherwise returns the canned command of the first matching key in table
order — hence at most one suggestion, determined by the question text
alone. -/
theorem claim_c10_quick (query : String) :
    ((∀ kv ∈ QUICK_SUGGESTIONS, quickMatches (pyLower query) kv.1 = false) →
      get_quick_suggestion query = none)
    ∧ (∀ (l1 : List (String × String)) (kv : String × String)
          (l2 : List (String × String)),
        QUICK_SUGGESTIONS = l1 ++ kv :: l2 →
        (∀ kv2 ∈ l1, quickMatches (pyLower query) kv2.1 = false) →
        quickMatches (pyLower query) kv.1 = true →
        get_quick_suggestion query = some kv.2) := by
  constructor
  · intro hall
    rw [get_quick_suggestion, List.find?_eq_none.mpr
      (fun kv hkv => by simp [hall kv hkv])]
    rfl
  · intro l1 kv l2 htab h1 h2
    rw [get_quick_suggestion, htab, find?_first _ l1 kv l2 h1 h2]
    rfl

/-- Witness for C10: the question `how to find large files` matches the
first key and returns its command; the question `zzz` matches no key and
returns none. -/
theorem claim_c10_quick_witness :
    get_quick_suggestion "how to find large files"
      = some "find . -type f -size +100M -exec ls -lh \x7b\x7d \\;"
    ∧ get_quick_suggestion "zzz" = none := by
  constructor
  · exact (claim_c10_quick "how to find large files").2 []
      ("find large files", "find . -type f -size +100M -exec ls -lh \x7b\x7d \\;")
      (QUICK_SUGGESTIONS.drop 1) rfl (by simp) (by decide)
  · exact (claim_c10_quick "zzz").1 (by decide)
